import Mathlib

/-!
Verification of the dashboard data-aggregation and filtering pipeline of a
Next.js investing app: the summary normalizer, aggregator, filter engine and
paginator (src/app/api/dashboard/route.js, src/app/api/user/route.js,
src/app/components/InvestmentDashboard.tsx, the NewsCard component), embedded
shallowly in Lean. JavaScript numbers are modelled as rationals, JS
`Math.round`/`Math.floor` as explicit integer operations, and `JSON.parse`
as a concrete JSON parser returning `Option JValue` (`none` = the exception).
-/

namespace InvestApp

/-- JS `Math.round x`: floor of `x + 1/2` (rounds half toward +infinity). -/
def jround (q : ℚ) : ℤ := ⌊q + 1/2⌋

/-- JS `String.prototype.toLowerCase` (ASCII case mapping suffices for the
sentiment / time-horizon labels and search terms this app compares). -/
def jsToLower (s : String) : String := String.mk (s.data.map Char.toLower)

/-- Leading-match test on character lists (helper for `strIncludes`). -/
def isPref : List Char → List Char → Bool
  | [], _ => true
  | _ :: _, [] => false
  | a :: as, b :: bs => a == b && isPref as bs

/-- Does `pat` occur contiguously in the text? (helper for `strIncludes`). -/
def hasSub (pat : List Char) : List Char → Bool
  | [] => pat.isEmpty
  | c :: cs => isPref pat (c :: cs) || hasSub pat cs

/-- JS `String.prototype.includes`: substring containment (the empty pattern
is contained in every string, as in JS). -/
def strIncludes (s pat : String) : Bool := hasSub pat.data s.data

/-! ## A model of JSON values and of `JSON.parse`

The stored array-valued columns are JSON text; the routes decode them with
the JS builtin `JSON.parse`, which throws on malformed input.  We model the
parse as a total Lean function into `Option JValue`, `none` standing for the
thrown `SyntaxError`. -/

inductive JValue where
  | jnull : JValue
  | jbool (b : Bool) : JValue
  | jnum (q : ℚ) : JValue
  | jstr (s : String) : JValue
  | jarr (xs : List JValue) : JValue
  | jobj (kvs : List (String × JValue)) : JValue
deriving Repr

/-- JSON insignificant whitespace. -/
def isJsonWs (c : Char) : Bool :=
  c = ' ' || c = '\t' || c = '\n' || c = '\r'

def skipWs : List Char → List Char
  | c :: cs => if isJsonWs c then skipWs cs else c :: cs
  | [] => []

def hexVal (c : Char) : Option Nat :=
  if '0' ≤ c ∧ c ≤ '9' then some (c.toNat - 48)
  else if 'a' ≤ c ∧ c ≤ 'f' then some (c.toNat - 87)
  else if 'A' ≤ c ∧ c ≤ 'F' then some (c.toNat - 55)
  else none

def isDigit (c : Char) : Bool := '0' ≤ c && c ≤ '9'

/-- Longest leading run of decimal digits, with the rest of the input. -/
def spanDigits : List Char → List Char × List Char
  | c :: cs =>
    if isDigit c then
      let (ds, rest) := spanDigits cs
      (c :: ds, rest)
    else ([], c :: cs)
  | [] => ([], [])

def digitsToNat (ds : List Char) : Nat :=
  ds.foldl (fun a c => a * 10 + (c.toNat - 48)) 0

/-- JSON string literal body (after the opening quote); handles the escape
sequences JSON.parse accepts and rejects raw control characters. -/
def parseStrBody : Nat → List Char → List Char → Option (String × List Char)
  | 0, _, _ => none
  | _ + 1, _, [] => none
  | fuel + 1, acc, c :: rest =>
    if c = '"' then some (String.mk acc.reverse, rest)
    else if c = '\\' then
      match rest with
      | [] => none
      | e :: rest2 =>
        if e = '"' then parseStrBody fuel ('"' :: acc) rest2
        else if e = '\\' then parseStrBody fuel ('\\' :: acc) rest2
        else if e = '/' then parseStrBody fuel ('/' :: acc) rest2
        else if e = 'b' then parseStrBody fuel ((Char.ofNat 8) :: acc) rest2
        else if e = 'f' then parseStrBody fuel ((Char.ofNat 12) :: acc) rest2
        else if e = 'n' then parseStrBody fuel ('\n' :: acc) rest2
        else if e = 'r' then parseStrBody fuel ('\r' :: acc) rest2
        else if e = 't' then parseStrBody fuel ('\t' :: acc) rest2
        else if e = 'u' then
          match rest2 with
          | h1 :: h2 :: h3 :: h4 :: rest3 =>
            match hexVal h1, hexVal h2, hexVal h3, hexVal h4 with
            | some a, some b, some c3, some d =>
              parseStrBody fuel
                ((Char.ofNat (((a * 16 + b) * 16 + c3) * 16 + d)) :: acc) rest3
            | _, _, _, _ => none
          | _ => none
        else none
    else if c.toNat < 32 then none
    else parseStrBody fuel (c :: acc) rest

/-- JSON number grammar: `-? int frac? exp?`, with no leading zeros. -/
def parseNumber (cs : List Char) : Option (ℚ × List Char) :=
  let (neg, cs1) :=
    match cs with
    | '-' :: rest => (true, rest)
    | _ => (false, cs)
  match cs1 with
  | [] => none
  | c :: _ =>
    if !isDigit c then none
    else
      let (ds, cs2) := spanDigits cs1
      -- JSON rejects leading zeros such as "01"
      if ds.length > 1 ∧ ds.headI = '0' then none
      else
        let intPart : ℚ := (digitsToNat ds : ℚ)
        let (fracPart, cs3) :=
          match cs2 with
          | '.' :: rest =>
            let (fds, rest2) := spanDigits rest
            if fds.isEmpty then (none, cs2)
            else (some ((digitsToNat fds : ℚ) / (10 : ℚ) ^ fds.length), rest2)
          | _ => (none, cs2)
        match fracPart, cs3 with
        | none, '.' :: _ => none  -- a dot with no digits after it is an error
        | _, _ =>
          let base := intPart + (fracPart.getD 0)
          let expParse :=
            match cs3 with
            | 'e' :: rest => some rest
            | 'E' :: rest => some rest
            | _ => none
          match expParse with
          | none =>
            let v := if neg then -base else base
            some (v, cs3)
          | some rest =>
            let (esign, rest2) :=
              match rest with
              | '+' :: r => ((1 : ℤ), r)
              | '-' :: r => ((-1 : ℤ), r)
              | _ => ((1 : ℤ), rest)
            let (eds, rest3) := spanDigits rest2
            if eds.isEmpty then none
            else
              let e : ℤ := esign * (digitsToNat eds : ℤ)
              let scaled :=
                if e ≥ 0 then base * (10 : ℚ) ^ e.toNat
                else base / (10 : ℚ) ^ (-e).toNat
              let v := if neg then -scaled else scaled
              some (v, rest3)

mutual

/-- One JSON value, fuel-indexed. -/
def parseVal : Nat → List Char → Option (JValue × List Char)
  | 0, _ => none
  | fuel + 1, cs =>
    match skipWs cs with
    | 'n' :: 'u' :: 'l' :: 'l' :: rest => some (.jnull, rest)
    | 't' :: 'r' :: 'u' :: 'e' :: rest => some (.jbool true, rest)
    | 'f' :: 'a' :: 'l' :: 's' :: 'e' :: rest => some (.jbool false, rest)
    | '"' :: rest =>
      match parseStrBody (rest.length + 1) [] rest with
      | some (s, rest2) => some (.jstr s, rest2)
      | none => none
    | '[' :: rest =>
      match skipWs rest with
      | ']' :: rest2 => some (.jarr [], rest2)
      | rest2 =>
        match parseElems fuel rest2 with
        | some (xs, rest3) => some (.jarr xs, rest3)
        | none => none
    | c :: rest =>
      if c = Char.ofNat 123 then
        match skipWs rest with
        | k :: rest2 =>
          if k = Char.ofNat 125 then some (.jobj [], rest2)
          else
            match parseMembers fuel (k :: rest2) with
            | some (kvs, rest3) => some (.jobj kvs, rest3)
            | none => none
        | [] => none
      else
        match parseNumber (c :: rest) with
        | some (q, rest2) => some (.jnum q, rest2)
        | none => none
    | [] => none

/-- Comma-separated array elements up to the closing bracket. -/
def parseElems : Nat → List Char → Option (List JValue × List Char)
  | 0, _ => none
  | fuel + 1, cs => do
    let (v, rest) ← parseVal fuel cs
    match skipWs rest with
    | ',' :: rest2 =>
      let (vs, rest3) ← parseElems fuel rest2
      some (v :: vs, rest3)
    | ']' :: rest2 => some ([v], rest2)
    | _ => none

/-- Comma-separated object members up to the closing brace. -/
def parseMembers : Nat → List Char → Option (List (String × JValue) × List Char)
  | 0, _ => none
  | fuel + 1, cs =>
    match skipWs cs with
    | '"' :: rest => do
      let (k, rest2) ← parseStrBody (rest.length + 1) [] rest
      match skipWs rest2 with
      | ':' :: rest3 =>
        let (v, rest4) ← parseVal fuel rest3
        match skipWs rest4 with
        | ',' :: rest5 =>
          let (kvs, rest6) ← parseMembers fuel rest5
          some ((k, v) :: kvs, rest6)
        | c :: rest5 =>
          if c = Char.ofNat 125 then some ([(k, v)], rest5) else none
        | [] => none
      | _ => none
    | _ => none

end

/-- Model of the JS builtin `JSON.parse`: `none` is the thrown SyntaxError. -/
def jsonParse (s : String) : Option JValue :=
  match parseVal (s.length * 4 + 16) s.data with
  | some (v, rest) => if (skipWs rest).isEmpty then some v else none
  | none => none

/-! ## Record store rows (src/prisma schema, src/app/api/dashboard/route.js)

One row of `article_summaries` joined with `collected_urls`, as the dashboard
route's SQL delivers it.  Nullable text columns are `Option String`, the
confidence score an optional rational, timestamps opaque epoch-millisecond
integers. -/

structure RawSummary where
  id : ℤ
  source_file : Option String
  processed_at : Option ℤ
  model_used : Option String
  summary : Option String
  investment_implications : Option String
  sentiment : Option String
  time_horizon : Option String
  confidence_score : Option ℚ
  key_metrics : Option String
  companies_mentioned : Option String
  sectors_affected : Option String
  risk_factors : Option String
  opportunities : Option String
  original_url : Option String
  article_domain : Option String
  url_collected_at : Option ℤ

/-- JS truthiness of a nullable string: `null`, `undefined` and `""` are
falsy, every other string is truthy. -/
def truthyStr : Option String → Bool
  | none => false
  | some s => s ≠ ""

/-- `x || null` on a nullable string (route.js lines 43-45). -/
def strOrNull (o : Option String) : Option String :=
  match o with
  | some s => if s = "" then none else some s
  | none => none

/-- `summary.key_metrics ? JSON.parse(summary.key_metrics) : []`
(route.js lines 52-56): a null/absent/empty field becomes `[]` without
parsing; otherwise the JSON decode runs and may throw (`none`). -/
def parseField (field : Option String) : Option JValue :=
  match field with
  | none => some (.jarr [])
  | some s => if s = "" then some (.jarr []) else jsonParse s

/-- The `parsed_summary` object built by the dashboard route. -/
structure ParsedFields where
  summary : String
  investment_implications : String
  sentiment : String
  time_horizon : String
  confidence_score : ℚ
  key_metrics : JValue
  companies_mentioned : JValue
  sectors_affected : JValue
  risk_factors : JValue
  opportunities : JValue

/-- One element of the route's `processedSummaries` array. -/
structure ProcessedSummary where
  id : ℤ
  source_file : String
  processed_at : Option ℤ
  model_used : String
  original_url : Option String
  article_domain : Option String
  url_collected_at : Option ℤ
  parsed_summary : ParsedFields
  processed_datetime : Option ℤ

/-- The try-block of `summaries.map(...)` (route.js lines 36-63): builds the
view object; a throwing `JSON.parse` aborts the whole record (`none`),
mirroring `catch (parseError) { return null }`. -/
def processSummary (r : RawSummary) : Option ProcessedSummary := do
  let km ← parseField r.key_metrics
  let cm ← parseField r.companies_mentioned
  let sa ← parseField r.sectors_affected
  let rf ← parseField r.risk_factors
  let op ← parseField r.opportunities
  pure
    { id := r.id
      source_file := r.source_file.getD ""
      processed_at := r.processed_at
      model_used := r.model_used.getD ""
      original_url := strOrNull r.original_url
      article_domain := strOrNull r.article_domain
      url_collected_at := r.url_collected_at
      parsed_summary :=
        { summary := r.summary.getD ""
          investment_implications := r.investment_implications.getD ""
          sentiment := r.sentiment.getD ""
          time_horizon := r.time_horizon.getD ""
          confidence_score := r.confidence_score.getD 0
          key_metrics := km
          companies_mentioned := cm
          sectors_affected := sa
          risk_factors := rf
          opportunities := op }
      processed_datetime := r.processed_at }

/-- `summaries.map(...).filter(Boolean)` (route.js lines 36-64): records whose
shaping threw are dropped from the result set. -/
def dashProcess (rows : List RawSummary) : List ProcessedSummary :=
  rows.filterMap processSummary

/-! ## Aggregator (route.js lines 25-33 and 100-109)

The stats SQL runs over the whole `article_summaries` table with no WHERE
clause: `COUNT(*)`, one `COUNT(CASE WHEN sentiment = '...' ...)` per label
(SQL `=` is case-sensitive and NULL never matches), and
`AVG(confidence_score)` (SQL AVG skips NULLs and is NULL on an empty set). -/

def sqlAvgConfidence (rows : List RawSummary) : Option ℚ :=
  let xs := rows.filterMap (fun r => r.confidence_score)
  if xs.isEmpty then none else some (xs.sum / xs.length)

structure DashboardStats where
  total_summaries : ℕ
  positive : ℕ
  negative : ℕ
  neutral : ℕ
  avg_confidence : ℚ

/-- `dashboardStats` (route.js lines 100-109): `Number(null) || 0` maps a
NULL average to 0; `Math.round(x * 100) / 100` rounds to two decimals. -/
def dashboardStats (rows : List RawSummary) : DashboardStats :=
  { total_summaries := rows.length
    positive := rows.countP (fun r => r.sentiment == some "positive")
    negative := rows.countP (fun r => r.sentiment == some "negative")
    neutral := rows.countP (fun r => r.sentiment == some "neutral")
    avg_confidence := (jround (((sqlAvgConfidence rows).getD 0) * 100) : ℚ) / 100 }

/-! ## Server-side filter (route.js lines 66-98) -/

/-- The three query parameters; `searchParams.get` yields `null` when the
parameter is absent. -/
structure QueryParams where
  sentiment : Option String
  timeHorizon : Option String
  search : Option String

/-- String conversion `Array.prototype.join` applies to one parsed JSON
element.  String entries (the invariant case) pass through; other JSON
values are approximated by their obvious text — no claim depends on the
join text of a malformed (non-string-array) column. -/
def jvText : JValue → String
  | .jstr s => s
  | .jnum q => toString q
  | .jbool true => "true"
  | .jbool false => "false"
  | .jnull => ""
  | .jarr _ => ""
  | .jobj _ => ""

/-- `...(summary.parsed_summary.companies_mentioned || [])` — spreading a
parsed column into the searchable-text array.  On a decoded JSON array this
is exactly its elements; a decoded non-array (which JS would iterate as a
string or throw on, a case outside every claim) contributes nothing. -/
def jvSpread (v : JValue) : List String :=
  match v with
  | .jarr xs => xs.map jvText
  | _ => []

/-- The `searchableText` joined by the route's filter (lines 79-89). -/
def routeSearchText (s : ProcessedSummary) : String :=
  String.intercalate " "
    ([s.parsed_summary.summary, s.parsed_summary.investment_implications]
      ++ jvSpread s.parsed_summary.companies_mentioned
      ++ jvSpread s.parsed_summary.sectors_affected
      ++ jvSpread s.parsed_summary.key_metrics
      ++ [s.source_file, s.original_url.getD "", s.article_domain.getD "",
          s.model_used])

/-- The filter callback of route.js lines 68-97: three early-return guards,
each predicate ANDed, compared case-insensitively. -/
def routeMatches (p : QueryParams) (s : ProcessedSummary) : Bool :=
  if truthyStr p.sentiment
      && (jsToLower s.parsed_summary.sentiment != jsToLower (p.sentiment.getD ""))
    then false
  else if truthyStr p.timeHorizon
      && (jsToLower s.parsed_summary.time_horizon != jsToLower (p.timeHorizon.getD ""))
    then false
  else if truthyStr p.search
      && !(strIncludes (jsToLower (routeSearchText s)) (jsToLower (p.search.getD "")))
    then false
  else true

/-- The dashboard GET handler's successful response body. -/
structure DashResponse where
  success : Bool
  summaries : List ProcessedSummary
  stats : DashboardStats

/-- `GET /api/dashboard` on a given table snapshot (`rows` is the table in
the `ORDER BY processed_at DESC` order the SQL engine delivers; `LIMIT 200`
is the `.take 200`).  Stats are computed from the unfiltered table; the
in-memory filter is only entered when at least one parameter is truthy. -/
def dashboardGET (rows : List RawSummary) (p : QueryParams) : DashResponse :=
  let processed := dashProcess (rows.take 200)
  let filtered :=
    if truthyStr p.sentiment || truthyStr p.timeHorizon || truthyStr p.search
      then processed.filter (routeMatches p)
      else processed
  { success := true, summaries := filtered, stats := dashboardStats rows }

/-! ## Single-record lookup (src/app/api/user/route.js lines 87-145) -/

/-- Status/flag/error triple of a JSON API response. -/
structure ApiResponse where
  status : ℕ
  success : Bool
  error : Option String

/-- `GET /api/summaries/[id]`: `findUnique` by identifier; a missing row is
the dedicated 404 branch (lines 103-108); otherwise the record is shaped
with the same five throwing `JSON.parse` calls (lines 120-131, mirrored by
`processSummary`), a throw landing in the generic 500 handler. -/
def getSummaryById (rows : List RawSummary) (id : ℤ) : ApiResponse :=
  match rows.find? (fun r => r.id == id) with
  | none => { status := 404, success := false, error := some "Summary not found" }
  | some r =>
    match processSummary r with
    | some _ => { status := 200, success := true, error := none }
    | none => { status := 500, success := false, error := some "JSON SyntaxError" }

/-! ## Client-side model (src/app/components/InvestmentDashboard.tsx)

The component receives the route's payload typed with `string[]` fields
(interface `ParsedSummary`), so the in-browser filter, paginator and stats
operate on fully decoded records. -/

/-- TSX interface `ParsedSummary`. -/
structure ClientParsed where
  summary : String
  investment_implications : String
  sentiment : String
  time_horizon : String
  confidence_score : ℚ
  key_metrics : List String
  companies_mentioned : List String
  sectors_affected : List String
  risk_factors : List String
  opportunities : List String

/-- TSX interface `Summary` (the parts the filter and stats read). -/
structure ClientSummary where
  id : ℤ
  source_file : String
  processed_at : Option ℤ
  model_used : String
  parsed_summary : ClientParsed

/-- TSX interface `Filters`: the UI initialises each field to `''`, so the
empty string is the absent filter. -/
structure Filters where
  sentiment : String
  timeHorizon : String
  search : String

/-- `searchableText` of the client filter (TSX lines 109-116). -/
def searchableText (s : ClientSummary) : String :=
  String.intercalate " "
    ([s.parsed_summary.summary, s.parsed_summary.investment_implications]
      ++ s.parsed_summary.companies_mentioned
      ++ s.parsed_summary.sectors_affected
      ++ s.parsed_summary.key_metrics
      ++ [s.source_file])

/-- The filter callback (TSX lines 95-123): sentiment and time-horizon
equality checks and the substring scan, all case-insensitive, ANDed by
early returns. -/
def matchesFilters (f : Filters) (s : ClientSummary) : Bool :=
  if f.sentiment != ""
      && (jsToLower s.parsed_summary.sentiment != jsToLower f.sentiment)
    then false
  else if f.timeHorizon != ""
      && (jsToLower s.parsed_summary.time_horizon != jsToLower f.timeHorizon)
    then false
  else if f.search != ""
      && !(strIncludes (jsToLower (searchableText s)) (jsToLower f.search))
    then false
  else true

/-- `filteredSummaries` (TSX line 95): one pass of `Array.prototype.filter`. -/
def filteredSummaries (f : Filters) (S : List ClientSummary) : List ClientSummary :=
  S.filter (matchesFilters f)

/-- The standalone sentiment guard of that callback (TSX lines 97-99), as a
pass/fail predicate: `true` unless the early return fires. -/
def sentimentPass (f : Filters) (s : ClientSummary) : Bool :=
  !(f.sentiment != ""
      && (jsToLower s.parsed_summary.sentiment != jsToLower f.sentiment))

/-- The time-horizon guard (TSX lines 102-104) as a pass/fail predicate. -/
def timeHorizonPass (f : Filters) (s : ClientSummary) : Bool :=
  !(f.timeHorizon != ""
      && (jsToLower s.parsed_summary.time_horizon != jsToLower f.timeHorizon))

/-- The search guard (TSX lines 107-121) as a pass/fail predicate. -/
def searchPass (f : Filters) (s : ClientSummary) : Bool :=
  !(f.search != ""
      && !(strIncludes (jsToLower (searchableText s)) (jsToLower f.search)))

/-! ## Paginator (TSX lines 58 and 127-130) -/

def ITEMS_PER_PAGE : ℕ := 9

/-- `Math.ceil(filteredSummaries.length / size)` on natural inputs — the
rounded-up quotient (`totalPages_eq_ceil` below proves this equals the
mathematical ceiling for positive page sizes). -/
def totalPages (size len : ℕ) : ℕ := (len + size - 1) / size

/-- `filteredSummaries.slice(startIndex, startIndex + size)` with
`startIndex = (currentPage - 1) * size` (TSX lines 129-130); `slice` clamps
both indices to the array bounds. -/
def paginate (size page : ℕ) (S : List α) : List α :=
  (S.drop ((page - 1) * size)).take size

/-- All pages in order: page 1 through `totalPages`. -/
def allPages (size : ℕ) (S : List α) : List (List α) :=
  (List.range (totalPages size S.length)).map (fun i => paginate size (i + 1) S)

/-! ## Client-side aggregator `filteredStats` (TSX lines 138-164) -/

structure ClientStats where
  total_summaries : ℕ
  positive : ℕ
  negative : ℕ
  neutral : ℕ
  avg_confidence : ℚ

/-- `filteredStats`: zeros for an empty set; otherwise lower-cased sentiment
bucket counts and `Math.round(sum / length * 100)` — the mean scaled to an
integer percentage (`(c || 0)` keeps an absent score at 0). -/
def filteredStats (S : List ClientSummary) : ClientStats :=
  if S.length = 0 then
    { total_summaries := 0, positive := 0, negative := 0, neutral := 0,
      avg_confidence := 0 }
  else
    { total_summaries := S.length
      positive := S.countP (fun s => jsToLower s.parsed_summary.sentiment == "positive")
      negative := S.countP (fun s => jsToLower s.parsed_summary.sentiment == "negative")
      neutral := S.countP (fun s => jsToLower s.parsed_summary.sentiment == "neutral")
      avg_confidence :=
        (jround (((S.map (fun s => s.parsed_summary.confidence_score)).sum
            / (S.length : ℚ)) * 100) : ℚ) }

/-! ## NewsCard presentation helpers (src/unnamed/part_000) -/

structure ConfidenceConfig where
  color : String
  label : String

/-- `getConfidenceConfig` (part_000 lines 84-89): the JS guard
`if (!confidence)` is true exactly on `null`/`undefined`/`0`, then the
0.8 / 0.6 thresholds. -/
def getConfidenceConfig (c : Option ℚ) : ConfidenceConfig :=
  match c with
  | none => { color := "bg-slate-500", label := "Unknown" }
  | some q =>
    if q = 0 then { color := "bg-slate-500", label := "Unknown" }
    else if q ≥ 4/5 then { color := "bg-emerald-500", label := "High" }
    else if q ≥ 3/5 then { color := "bg-amber-500", label := "Medium" }
    else { color := "bg-red-500", label := "Low" }

/-- The confidence badge is rendered only under the truthiness guard
`summary.parsed_summary.confidence_score && (...)` (part_000 line 128). -/
def rendersConfidenceBadge (c : ℚ) : Bool := c != 0

/-- `formatTimeAgo` (part_000 lines 91-104) on the elapsed milliseconds
`now - date`: three `Math.floor` integer divisions, unit chosen by
day > hour > minute precedence, plural `"s"` iff the count is not 1. -/
def formatTimeAgo (diff : ℤ) : String :=
  let days := diff.fdiv 86400000
  let hours := diff.fdiv 3600000
  let minutes := diff.fdiv 60000
  if days > 0 then
    toString days ++ " day" ++ (if days ≠ 1 then "s" else "") ++ " ago"
  else if hours > 0 then
    toString hours ++ " hour" ++ (if hours ≠ 1 then "s" else "") ++ " ago"
  else if minutes > 0 then
    toString minutes ++ " minute" ++ (if minutes ≠ 1 then "s" else "") ++ " ago"
  else "Just now"

/-- The full `formatTimeAgo` including its null guard (line 92). -/
def formatTimeAgoAt (now : ℤ) : Option ℤ → String
  | none => "Unknown time"
  | some date => formatTimeAgo (now - date)

/-! ## Auxiliary definitions for the claims -/

/-- Selector for the five JSON-array-valued columns. -/
inductive ArrField where
  | km | cm | sa | rf | op

/-- The raw text column a selector picks. -/
def rawField : ArrField → RawSummary → Option String
  | .km, r => r.key_metrics
  | .cm, r => r.companies_mentioned
  | .sa, r => r.sectors_affected
  | .rf, r => r.risk_factors
  | .op, r => r.opportunities

/-- The decoded field a selector picks in the normalized view. -/
def parsedField : ArrField → ParsedFields → JValue
  | .km, p => p.key_metrics
  | .cm, p => p.companies_mentioned
  | .sa, p => p.sectors_affected
  | .rf, p => p.risk_factors
  | .op, p => p.opportunities

/-- The value claimed by the spec for `avg_confidence`: the arithmetic mean
of the scores (an absent score contributing 0), rounded to 2 decimal
places, 0 for the empty set.  Written from the spec's words, to be compared
with the two aggregators the code actually contains. -/
def specMeanRounded2 (xs : List ℚ) : ℚ :=
  if xs.length = 0 then 0
  else (jround ((xs.sum / (xs.length : ℚ)) * 100) : ℚ) / 100

/-- A stored row whose `key_metrics` column holds syntactically invalid
JSON (the spec's own scenario input `{key_metrics: "not-json"}`). -/
def badRecord : RawSummary :=
  { id := 1, source_file := some "a.json", processed_at := none,
    model_used := none, summary := none, investment_implications := none,
    sentiment := none, time_horizon := none, confidence_score := none,
    key_metrics := some "not-json", companies_mentioned := none,
    sectors_affected := none, risk_factors := none, opportunities := none,
    original_url := none, article_domain := none, url_collected_at := none }

/-- A normalized client-side summary with confidence score 0.82 (the spec's
scenario record). -/
def s82 : ClientSummary :=
  { id := 1, source_file := "a.json", processed_at := none, model_used := "m",
    parsed_summary :=
      { summary := "", investment_implications := "", sentiment := "Positive",
        time_horizon := "", confidence_score := 41/50, key_metrics := [],
        companies_mentioned := [], sectors_affected := [], risk_factors := [],
        opportunities := [] } }

/-! ## Theorems -/

/-- C3: for every input sequence `S` and filter specifications `f1`, `f2`,
running the Filter Engine twice equals one pass with the conjunction of the
two specifications' predicates, and the order of the two passes is
irrelevant. -/
theorem c3_filter_composition (f1 f2 : Filters) (S : List ClientSummary) :
    filteredSummaries f2 (filteredSummaries f1 S)
        = S.filter (fun s => matchesFilters f1 s && matchesFilters f2 s)
      ∧ filteredSummaries f2 (filteredSummaries f1 S)
        = filteredSummaries f1 (filteredSummaries f2 S) := by
  constructor
  · unfold filteredSummaries
    rw [List.filter_filter]
    exact List.filter_congr fun a _ => Bool.and_comm _ _
  · unfold filteredSummaries
    rw [List.filter_filter, List.filter_filter]
    exact List.filter_congr fun a _ => Bool.and_comm _ _

/-- C6: the sentiment predicate passes iff the filter is empty or the
normalized sentiment equals the filter value ignoring case; likewise the
time-horizon predicate; and the whole filter callback is exactly the
conjunction of the sentiment, time-horizon and search predicates. -/
theorem c6_equality_predicates (f : Filters) (s : ClientSummary) :
    (sentimentPass f s = true ↔
        f.sentiment = "" ∨
          jsToLower s.parsed_summary.sentiment = jsToLower f.sentiment)
      ∧ (timeHorizonPass f s = true ↔
        f.timeHorizon = "" ∨
          jsToLower s.parsed_summary.time_horizon = jsToLower f.timeHorizon)
      ∧ matchesFilters f s
        = (sentimentPass f s && timeHorizonPass f s && searchPass f s) := by
  refine ⟨?_, ?_, ?_⟩
  · by_cases h1 : f.sentiment = "" <;>
      by_cases h2 : jsToLower s.parsed_summary.sentiment = jsToLower f.sentiment <;>
      simp [sentimentPass, h1, h2]
  · by_cases h1 : f.timeHorizon = "" <;>
      by_cases h2 : jsToLower s.parsed_summary.time_horizon = jsToLower f.timeHorizon <;>
      simp [timeHorizonPass, h1, h2]
  · unfold matchesFilters sentimentPass timeHorizonPass searchPass
    cases hb1 : (f.sentiment != ""
        && (jsToLower s.parsed_summary.sentiment != jsToLower f.sentiment)) <;>
      cases hb2 : (f.timeHorizon != ""
        && (jsToLower s.parsed_summary.time_horizon != jsToLower f.timeHorizon)) <;>
      cases hb3 : (f.search != ""
        && !(strIncludes (jsToLower (searchableText s)) (jsToLower f.search))) <;>
      simp [hb1, hb2, hb3]

/-- C7: a single-record lookup whose identifier matches no stored record
yields the dedicated not-found outcome: HTTP 404 with `success: false` and
the "Summary not found" message — not the generic 500 failure and not a
success payload. -/
theorem c7_not_found_lookup (rows : List RawSummary) (id : ℤ)
    (h : rows.find? (fun r => r.id == id) = none) :
    getSummaryById rows id
      = { status := 404, success := false, error := some "Summary not found" } := by
  unfold getSummaryById
  rw [h]

/-- C7 witness: looking up id 1 in an empty store hits the not-found
branch. -/
theorem c7_not_found_lookup_witness :
    getSummaryById [] 1
      = { status := 404, success := false, error := some "Summary not found" } :=
  c7_not_found_lookup [] 1 rfl

/-- C9: the dashboard stats object is computed from the unfiltered table
only; two requests over the same store that differ in any of the three
filter parameters receive identical stats. -/
theorem c9_stats_filter_independent (rows : List RawSummary)
    (p1 p2 : QueryParams) :
    (dashboardGET rows p1).stats = (dashboardGET rows p2).stats := rfl

/-- C10: a zero or absent confidence score is classified "Unknown" and the
confidence badge is not rendered at all; for scores in the documented 0-1
range, the High/Medium/Low labels appear exactly on the strictly positive
scores, with the 0.8 and 0.6 thresholds. -/
theorem c10_confidence_display :
    (getConfidenceConfig none).label = "Unknown"
      ∧ (getConfidenceConfig (some 0)).label = "Unknown"
      ∧ rendersConfidenceBadge 0 = false
      ∧ (∀ c : ℚ, 0 < c →
          rendersConfidenceBadge c = true
            ∧ (getConfidenceConfig (some c)).label
              = (if c ≥ 4/5 then "High" else if c ≥ 3/5 then "Medium" else "Low"))
      ∧ (∀ c : ℚ, 0 ≤ c →
          ((getConfidenceConfig (some c)).label ≠ "Unknown" ↔ 0 < c)) := by
  refine ⟨rfl, by norm_num [getConfidenceConfig], by simp [rendersConfidenceBadge],
    ?_, ?_⟩
  · intro c hc
    refine ⟨by simp [rendersConfidenceBadge, hc.ne'], ?_⟩
    simp only [getConfidenceConfig]
    rw [if_neg hc.ne']
    split_ifs <;> rfl
  · intro c hc
    rcases eq_or_lt_of_le hc with h0 | hpos
    · simp [getConfidenceConfig, ← h0]
    · simp only [getConfidenceConfig]
      rw [if_neg hpos.ne']
      split_ifs <;> simp [hpos]

/-- C10 witness: a 0.82 score renders the badge with the "High" label. -/
theorem c10_confidence_display_witness :
    rendersConfidenceBadge (41/50) = true
      ∧ (getConfidenceConfig (some (41/50))).label
        = (if (41:ℚ)/50 ≥ 4/5 then "High"
            else if (41:ℚ)/50 ≥ 3/5 then "Medium" else "Low") :=
  c10_confidence_display.2.2.2.1 (41/50) (by norm_num)

/-- C8: on every elapsed-millisecond value, the "time ago" display computes
day/hour/minute counts by floor division, picks the first strictly positive
count in day > hour > minute precedence (falling back to "Just now"), and
pluralizes exactly when the chosen count differs from 1. -/
theorem c8_time_ago_format (diff : ℤ) :
    (0 < diff.fdiv 86400000 →
        formatTimeAgo diff
          = toString (diff.fdiv 86400000) ++ " day"
              ++ (if diff.fdiv 86400000 = 1 then "" else "s") ++ " ago")
      ∧ (diff.fdiv 86400000 ≤ 0 → 0 < diff.fdiv 3600000 →
        formatTimeAgo diff
          = toString (diff.fdiv 3600000) ++ " hour"
              ++ (if diff.fdiv 3600000 = 1 then "" else "s") ++ " ago")
      ∧ (diff.fdiv 86400000 ≤ 0 → diff.fdiv 3600000 ≤ 0 → 0 < diff.fdiv 60000 →
        formatTimeAgo diff
          = toString (diff.fdiv 60000) ++ " minute"
              ++ (if diff.fdiv 60000 = 1 then "" else "s") ++ " ago")
      ∧ (diff.fdiv 86400000 ≤ 0 → diff.fdiv 3600000 ≤ 0 → diff.fdiv 60000 ≤ 0 →
        formatTimeAgo diff = "Just now") := by
  unfold formatTimeAgo
  refine ⟨?_, ?_, ?_, ?_⟩
  · intro h
    rw [if_pos h]
    by_cases h1 : diff.fdiv 86400000 = 1 <;> simp [h1]
  · intro h h2
    rw [if_neg (not_lt.mpr h), if_pos h2]
    by_cases h1 : diff.fdiv 3600000 = 1 <;> simp [h1]
  · intro h h2 h3
    rw [if_neg (not_lt.mpr h), if_neg (not_lt.mpr h2), if_pos h3]
    by_cases h1 : diff.fdiv 60000 = 1 <;> simp [h1]
  · intro h h2 h3
    rw [if_neg (not_lt.mpr h), if_neg (not_lt.mpr h2), if_neg (not_lt.mpr h3)]

/-- C8 witness: two elapsed days format as "2 days ago" (plural suffix,
day unit chosen). -/
theorem c8_time_ago_format_witness : formatTimeAgo 172800000 = "2 days ago" := by
  have h := (c8_time_ago_format 172800000).1 (by decide)
  rw [h]
  decide

/-- The natural-division form of `totalPages` agrees with the mathematical
ceiling `Math.ceil(len / size)` computes, for every positive page size. -/
theorem totalPages_eq_ceil (size len : ℕ) (h : 0 < size) :
    (totalPages size len : ℤ) = ⌈(len : ℚ) / (size : ℚ)⌉ := by
  have hq : (0 : ℚ) < (size : ℚ) := by exact_mod_cast h
  unfold totalPages
  set L := len + size - 1 with hL
  have e : size * (L / size) + L % size = L := Nat.div_add_mod _ _
  have hr : L % size < size := Nat.mod_lt _ h
  have eZ : (size : ℤ) * ((L / size : ℕ) : ℤ) + ((L % size : ℕ) : ℤ)
      = (L : ℤ) := by exact_mod_cast e
  have hrZ : ((L % size : ℕ) : ℤ) < (size : ℤ) := by exact_mod_cast hr
  have hr0 : (0 : ℤ) ≤ ((L % size : ℕ) : ℤ) := Int.ofNat_nonneg _
  have hLZ : (L : ℤ) = (len : ℤ) + (size : ℤ) - 1 := by omega
  rw [eq_comm, Int.ceil_eq_iff]
  constructor
  · rw [lt_div_iff₀ hq]
    have goalZ : (((L / size : ℕ) : ℤ) - 1) * (size : ℤ) < (len : ℤ) := by
      nlinarith
    exact_mod_cast goalZ
  · rw [div_le_iff₀ hq]
    have goalZ : (len : ℤ) ≤ ((L / size : ℕ) : ℤ) * (size : ℤ) := by
      nlinarith
    exact_mod_cast goalZ

/-- For a non-empty sequence, `totalPages` peels off as one page plus the
pages of the remainder. -/
theorem totalPages_pos_eq (size len : ℕ) (h : 0 < size) (hl : 0 < len) :
    totalPages size len = (len - 1) / size + 1 := by
  unfold totalPages
  have : len + size - 1 = (len - 1) + size := by omega
  rw [this, Nat.add_div_right _ h]

/-- Concatenating the `k` successive size-`size` chunks of `S` recovers `S`
whenever `k` is the page count. -/
theorem chunks_join (size : ℕ) (h : 0 < size) :
    ∀ (k : ℕ) (S : List α), totalPages size S.length = k →
      ((List.range k).map (fun i => (S.drop (i * size)).take size)).flatten = S := by
  intro k
  induction k with
  | zero =>
    intro S hS
    have hlen : S.length = 0 := by
      by_contra hne
      have hl : 0 < S.length := Nat.pos_of_ne_zero hne
      rw [totalPages_pos_eq size _ h hl] at hS
      exact absurd hS (Nat.succ_ne_zero _)
    simp [List.eq_nil_of_length_eq_zero hlen]
  | succ k ih =>
    intro S hS
    have hl : 0 < S.length := by
      by_contra hne
      have h0 : S.length = 0 := by omega
      rw [h0] at hS
      unfold totalPages at hS
      rw [Nat.zero_add, Nat.div_eq_of_lt (by omega)] at hS
      exact Nat.succ_ne_zero k hS.symm
    have hpeel : (S.length - 1) / size + 1 = k + 1 := by
      rw [← totalPages_pos_eq size _ h hl]
      exact hS
    have htailPages : totalPages size (S.drop size).length = k := by
      rw [List.length_drop]
      rcases Nat.lt_or_ge (S.length) (size + 1) with hle | hgt
      · -- the whole list fits in one page
        have hz : S.length - size = 0 := by omega
        rw [hz]
        have hd0 : (S.length - 1) / size = 0 := Nat.div_eq_of_lt (by omega)
        rw [hd0] at hpeel
        have hk0 : k = 0 := by omega
        unfold totalPages
        rw [Nat.zero_add, Nat.div_eq_of_lt (by omega), hk0]
      · -- at least one full page remains
        have hl2 : 0 < S.length - size := by omega
        rw [totalPages_pos_eq size _ h hl2]
        have hsplit : S.length - 1 = (S.length - size - 1) + size := by omega
        rw [hsplit, Nat.add_div_right _ h] at hpeel
        exact Nat.succ_injective hpeel
    rw [List.range_succ_eq_map]
    simp only [List.map_cons, List.flatten_cons, List.map_map]
    have hhead : (S.drop (0 * size)).take size = S.take size := by
      rw [Nat.zero_mul, List.drop_zero]
    have hbody :
        (List.map ((fun i => (S.drop (i * size)).take size) ∘ Nat.succ)
            (List.range k)).flatten = S.drop size := by
      have hfun : ∀ i, ((fun i => (S.drop (i * size)).take size) ∘ Nat.succ) i
          = ((S.drop size).drop (i * size)).take size := by
        intro i
        simp only [Function.comp_apply]
        rw [List.drop_drop]
        rw [Nat.succ_mul, Nat.add_comm]
      rw [List.map_congr_left fun i _ => hfun i]
      exact ih (S.drop size) htailPages
    rw [hhead, hbody, List.take_append_drop]

/-- C4: for every positive page size, concatenating the Paginator's pages
1 through `totalPages` in order reproduces the filtered sequence exactly. -/
theorem c4_pagination_partition (size : ℕ) (S : List ClientSummary)
    (h : 0 < size) : (allPages size S).flatten = S := by
  have hmain := chunks_join size h (totalPages size S.length) S rfl
  unfold allPages paginate
  simpa using hmain

/-- C4 witness: ten records at page size 3 are reassembled losslessly from
pages 1..4. -/
theorem c4_pagination_partition_witness :
    0 < 3 ∧ (allPages 3 (List.replicate 10 s82)).flatten = List.replicate 10 s82 :=
  ⟨by decide, c4_pagination_partition 3 (List.replicate 10 s82) (by decide)⟩

/-- C5: requesting any page strictly beyond `totalPages` yields the empty
slice — `slice` clamps, nothing is raised. -/
theorem c5_page_beyond_bounds (size n : ℕ) (S : List ClientSummary)
    (hp : 0 < size) (hn : totalPages size S.length < n) :
    paginate size n S = [] := by
  unfold paginate
  have hcov : S.length ≤ totalPages size S.length * size := by
    have e := Nat.div_add_mod (S.length + size - 1) size
    have hr : (S.length + size - 1) % size < size := Nat.mod_lt _ hp
    unfold totalPages
    rw [Nat.mul_comm]
    generalize hg1 : size * ((S.length + size - 1) / size) = m at e ⊢
    generalize hg2 : (S.length + size - 1) % size = r at e hr
    omega
  have hdrop : S.length ≤ (n - 1) * size := by
    calc S.length ≤ totalPages size S.length * size := hcov
      _ ≤ (n - 1) * size := Nat.mul_le_mul_right _ (by omega)
  rw [List.drop_eq_nil_iff.mpr hdrop, List.take_nil]

/-- C5 witness: the spec's scenario — page 5 of a 9-record set at page
size 9 is the empty slice. -/
theorem c5_page_beyond_bounds_witness :
    0 < 9 ∧ totalPages 9 (List.replicate 9 s82).length < 5
      ∧ paginate 9 5 (List.replicate 9 s82) = [] :=
  ⟨by decide, by decide,
    c5_page_beyond_bounds 9 5 (List.replicate 9 s82) (by decide) (by decide)⟩

/-- Inverting the normalizer's bind chain: a record that came through
carries exactly the parse results of its five JSON columns. -/
theorem processSummary_fields (r : RawSummary) (p : ProcessedSummary)
    (hp : processSummary r = some p) :
    parseField r.key_metrics = some p.parsed_summary.key_metrics
      ∧ parseField r.companies_mentioned = some p.parsed_summary.companies_mentioned
      ∧ parseField r.sectors_affected = some p.parsed_summary.sectors_affected
      ∧ parseField r.risk_factors = some p.parsed_summary.risk_factors
      ∧ parseField r.opportunities = some p.parsed_summary.opportunities := by
  unfold processSummary at hp
  simp only [Option.bind_eq_bind, Option.bind_eq_some, Option.pure_def,
    Option.some.injEq] at hp
  obtain ⟨km, hkm, cm, hcm, sa, hsa, rf, hrf, op, hop, rfl⟩ := hp
  exact ⟨hkm, hcm, hsa, hrf, hop⟩

/-- If any one of the five JSON columns fails to parse, the whole record is
rejected by the normalizer. -/
theorem processSummary_eq_none_of (fld : ArrField) (r : RawSummary)
    (h : parseField (rawField fld r) = none) : processSummary r = none := by
  cases fld
  case km =>
    simp only [rawField] at h
    simp [processSummary, h]
  case cm =>
    simp only [rawField] at h
    cases hkm : parseField r.key_metrics <;> simp [processSummary, h, hkm]
  case sa =>
    simp only [rawField] at h
    cases hkm : parseField r.key_metrics <;>
      cases hcm : parseField r.companies_mentioned <;>
      simp [processSummary, h, hkm, hcm]
  case rf =>
    simp only [rawField] at h
    cases hkm : parseField r.key_metrics <;>
      cases hcm : parseField r.companies_mentioned <;>
      cases hsa : parseField r.sectors_affected <;>
      simp [processSummary, h, hkm, hcm, hsa]
  case op =>
    simp only [rawField] at h
    cases hkm : parseField r.key_metrics <;>
      cases hcm : parseField r.companies_mentioned <;>
      cases hsa : parseField r.sectors_affected <;>
      cases hrf : parseField r.risk_factors <;>
      simp [processSummary, h, hkm, hcm, hsa, hrf]

/-- The decoded field of a surviving record is whatever its column parsed
to. -/
theorem parsedField_of_processSummary (fld : ArrField) (r : RawSummary)
    (p : ProcessedSummary) (hp : processSummary r = some p) (w : JValue)
    (hf : parseField (rawField fld r) = some w) :
    parsedField fld p.parsed_summary = w := by
  have hq := processSummary_fields r p hp
  cases fld
  case km => exact Option.some.inj ((hq.1.symm).trans hf)
  case cm => exact Option.some.inj ((hq.2.1.symm).trans hf)
  case sa => exact Option.some.inj ((hq.2.2.1.symm).trans hf)
  case rf => exact Option.some.inj ((hq.2.2.2.1.symm).trans hf)
  case op => exact Option.some.inj ((hq.2.2.2.2.symm).trans hf)

/-- C1 counterexample: the spec's own scenario record
`{key_metrics: "not-json"}` — its text is invalid JSON, and the dashboard
normalizer discards the entire record (`map` returns null, `filter(Boolean)`
drops it), so the output set is empty instead of containing a record with
an empty `key_metrics` list. -/
theorem c1_counterexample :
    jsonParse "not-json" = none ∧ dashProcess [badRecord] = [] :=
  ⟨rfl, rfl⟩

/-- C1 as amended: a null/absent/empty array column normalizes to the empty
list; but a column whose text fails to decode causes the whole record to be
discarded from the dashboard output (silently — the model is total, no
exception escapes), a decode to a non-array is passed through unchanged
rather than replaced by an empty list, and in the single-record route the
same parse failure surfaces as the generic 500 response. -/
theorem c1_normalizer_amended (fld : ArrField) (r : RawSummary) :
    ((rawField fld r = none ∨ rawField fld r = some "") →
      ∀ p, processSummary r = some p →
        parsedField fld p.parsed_summary = JValue.jarr [])
      ∧ (∀ s, rawField fld r = some s → s ≠ "" → jsonParse s = none →
        processSummary r = none)
      ∧ (∀ s v, rawField fld r = some s → s ≠ "" → jsonParse s = some v →
        ∀ p, processSummary r = some p → parsedField fld p.parsed_summary = v)
      ∧ (∀ rows id, rows.find? (fun x => x.id == id) = some r →
        processSummary r = none →
        getSummaryById rows id
          = { status := 500, success := false, error := some "JSON SyntaxError" }) := by
  refine ⟨?_, ?_, ?_, ?_⟩
  · intro habs p hp
    apply parsedField_of_processSummary fld r p hp
    rcases habs with h | h <;> simp [parseField, h]
  · intro s hs hne hnone
    apply processSummary_eq_none_of fld
    rw [hs]
    simp [parseField, hne, hnone]
  · intro s v hs hne hv p hp
    apply parsedField_of_processSummary fld r p hp
    rw [hs]
    simp [parseField, hne, hv]
  · intro rows id hfind hnone
    unfold getSummaryById
    rw [hfind]
    simp only []
    rw [hnone]

/-- C1 witness for the amended claim: the invalid-JSON record is rejected
by the normalizer. -/
theorem c1_normalizer_amended_witness : processSummary badRecord = none :=
  (c1_normalizer_amended ArrField.km badRecord).2.1 "not-json" rfl
    (by decide) rfl

/-- C2 counterexample: on a single summary with confidence score 0.82, the
client-side aggregator reports `avg_confidence = 82` (an integer
percentage), while the claim's value — the mean rounded to 2 decimal
places — is 0.82; they differ. -/
theorem c2_counterexample :
    (filteredStats [s82]).avg_confidence = 82
      ∧ specMeanRounded2 [(41 : ℚ)/50] = 41/50
      ∧ (82 : ℚ) ≠ 41/50 := by
  refine ⟨?_, ?_, by norm_num⟩
  · norm_num [filteredStats, s82, jround]
  · norm_num [specMeanRounded2, jround]

/-- C2 as amended: the client-side aggregator's `avg_confidence` is the
claimed 2-decimal rounded mean scaled by 100 (an integer percentage, every
score present with 0 as the default), and the server-side aggregator's
`avg_confidence` is the 2-decimal rounded mean over only the records whose
confidence is non-null (SQL `AVG` excludes NULLs from the denominator);
both yield 0 on an empty set. -/
theorem c2_avg_confidence_amended :
    (∀ S : List ClientSummary,
      (filteredStats S).avg_confidence
        = 100 * specMeanRounded2 (S.map fun s => s.parsed_summary.confidence_score))
      ∧ ∀ rows : List RawSummary,
        (dashboardStats rows).avg_confidence
          = specMeanRounded2 (rows.filterMap fun r => r.confidence_score) := by
  constructor
  · intro S
    by_cases h : S.length = 0
    · simp [filteredStats, specMeanRounded2, h]
    · simp [filteredStats, specMeanRounded2, h]
      ring
  · intro rows
    unfold dashboardStats specMeanRounded2 sqlAvgConfidence
    by_cases h : (rows.filterMap fun r => r.confidence_score) = []
    · simp [h, jround]
      norm_num
    · have hne : (rows.filterMap fun r => r.confidence_score).isEmpty = false := by
        simpa [List.isEmpty_iff] using h
      have hlen : ¬((rows.filterMap fun r => r.confidence_score).length = 0) := by
        simpa [List.length_eq_zero] using h
      simp [hne, hlen]

end InvestApp
